import Mathlib

/-!
Verification development for the Drone Operations control plane
(`utils/drone/policy.py`, `utils/drone/remote_id.py`, `utils/drone/detector.py`,
`utils/drone/service.py`).

Modelling conventions, used throughout:

* Python floats are modelled as exact rationals (`ℚ`).  Python's
  `round(x, 3)` is modelled by `round3` below, in exact rational
  arithmetic.
* Python strings are modelled as Lean `String`s over their code points;
  `str.lower()` / `str.upper()` are modelled with the ASCII case maps
  (`pyLower` / `pyUpper`), and `str.strip()` by `pyStrip`, which removes
  the standard whitespace characters at both ends.
* Python's dynamically typed values (the payload dictionaries flowing
  through the detectors and the Remote-ID decoder) are modelled by the
  inductive type `PyVal`, together with Python truthiness (`pyTruthy`).
* Wall-clock time (`time.time()`) is modelled as a rational number of
  seconds, passed explicitly to each operation that reads the clock.
-/

/-- Python `round(x, 3)` in exact rational arithmetic: multiply by 1000,
round to the nearest integer, divide back.  (Python rounds ties on the
underlying binary floats; no claim in this development exercises a tie.) -/
def round3 (q : ℚ) : ℚ := (round (q * 1000) : ℤ) / 1000

/-- ASCII lower-casing of one character, modelling Python `str.lower()`
on the ASCII range. -/
def pyLowerChar (c : Char) : Char := c.toLower

/-- ASCII upper-casing of one character, modelling Python `str.upper()`
on the ASCII range. -/
def pyUpperChar (c : Char) : Char := c.toUpper

/-- Python `str.lower()` (ASCII model), implemented over the character
list so that it evaluates by kernel reduction. -/
def pyLower (s : String) : String := String.mk (s.data.map pyLowerChar)

/-- Python `str.upper()` (ASCII model). -/
def pyUpper (s : String) : String := String.mk (s.data.map pyUpperChar)

/-- The characters removed by Python `str.strip()` with no argument. -/
def pyIsSpace (c : Char) : Bool :=
  c = ' ' || c = '\t' || c = '\n' || c = '\r' || c = '\x0b' || c = '\x0c'

/-- Python `str.strip()`: drop whitespace from both ends. -/
def pyStrip (s : String) : String :=
  String.mk (((s.data.dropWhile pyIsSpace).reverse.dropWhile pyIsSpace).reverse)

/-- Python `str.startswith(pre)`, implemented over character lists. -/
def pyStartsWith (s pre : String) : Bool := pre.data.isPrefixOf s.data

/-- Python `str.replace(a, b)` for single characters. -/
def pyReplaceChar (s : String) (a b : Char) : String :=
  String.mk (s.data.map (fun c => if c = a then b else c))

/-!
## Policy helpers (`utils/drone/policy.py` and
`DroneOpsService.required_approvals`, service.py lines 164-170)

The Python argument `action_type: str` may be `None` at runtime (the
code guards with `action_type or ''`), so it is modelled as
`Option String`.
-/

/-- Embeds `required_approvals_for_action` (policy.py lines 6-11):
`action = (action_type or '').strip().lower()`; 1 if it starts with
`passive_`, else 2. -/
def required_approvals_for_action (action_type : Option String) : Nat :=
  let action := pyLower (pyStrip (action_type.getD ""))
  if pyStartsWith action "passive_" then 1 else 2

namespace DroneOpsService

/-- Embeds the static method `DroneOpsService.required_approvals`
(service.py lines 164-170), whose body is identical to
`required_approvals_for_action`. -/
def required_approvals (action_type : Option String) : Nat :=
  let action := pyLower (pyStrip (action_type.getD ""))
  if pyStartsWith action "passive_" then 1 else 2

end DroneOpsService

/-- States the spec's sentence for C4 in its own words: 1 if the
trimmed, lower-cased action type starts with `passive_`, else 2
(including empty or null input, which canonicalizes to `""`). -/
def required_approvals_spec (action_type : Option String) : Nat :=
  if pyStartsWith (pyLower (pyStrip (action_type.getD ""))) "passive_" then 1 else 2

/-!
## Policy engine state (`DroneOpsService`, service.py lines 53-162)

The in-memory arming state guarded by `_policy_lock`.  `time.time()` is
modelled by an explicit `now : ℚ` argument; each modelled operation
takes the clock reading it would perform.  The ISO rendering of
`armed_until` in the snapshot is modelled by the timestamp itself.
-/

/-- The four `_armed_*` fields of `DroneOpsService` (service.py lines
58-61). -/
structure PolicyState where
  armed_until_ts : Option ℚ
  armed_by : Option String
  arm_reason : Option String
  arm_incident_id : Option Int
deriving DecidableEq

/-- The dictionary returned by `_policy_state_locked` (service.py lines
119-126). -/
structure PolicySnapshot where
  armed : Bool
  armed_by : Option String
  arm_reason : Option String
  arm_incident_id : Option Int
  armed_until : Option ℚ
  required_approvals_default : Nat
deriving DecidableEq

/-- The all-cleared policy state (every field `None`). -/
def clearedPolicy : PolicyState := ⟨none, none, none, none⟩

namespace DroneOpsService

/-- Embeds `DroneOpsService._policy_state_locked` (service.py lines
111-126): compute `armed`, lazily clear all fields when not armed, and
return the snapshot dictionary.  The snapshot's `armed_until` mirrors
Python's `... if self._armed_until_ts else None`, whose truthiness test
also maps a timestamp of exactly `0.0` to `None`. -/
def policy_state_locked (now : ℚ) (s : PolicyState) : PolicySnapshot × PolicyState :=
  let armed : Bool := match s.armed_until_ts with
    | some t => decide (now < t)
    | none => false
  let s' := if armed then s else clearedPolicy
  ({ armed := armed
     armed_by := s'.armed_by
     arm_reason := s'.arm_reason
     arm_incident_id := s'.arm_incident_id
     armed_until := match s'.armed_until_ts with
       | some t => if t = 0 then none else some t
       | none => none
     required_approvals_default := 2 }, s')

/-- Embeds `DroneOpsService.arm_actions` (service.py lines 133-150):
`duration_seconds = max(60, min(7200, int(duration_seconds or 900)))`,
then `armed_until = now + duration` and the snapshot is taken under the
same lock.  A `None` or `0` duration is falsy, so the `or` replaces it
with 900 before the clamp.  The second clock reading inside
`_policy_state_locked` is modelled by the same `now`. -/
def arm_actions (now : ℚ) (actor reason : String) (incident_id : Int)
    (duration_seconds : Option Int) : PolicySnapshot × PolicyState :=
  let d : Int := max 60 (min 7200
    (match duration_seconds with
     | none => 900
     | some v => if v = 0 then 900 else v))
  let s1 : PolicyState :=
    ⟨some (now + (d : ℚ)), some actor, some reason, some incident_id⟩
  policy_state_locked now s1

/-- Embeds `DroneOpsService.disarm_actions` (service.py lines 152-162):
clear every field, then snapshot. -/
def disarm_actions (now : ℚ) : PolicySnapshot × PolicyState :=
  policy_state_locked now clearedPolicy

end DroneOpsService

/-!
## Action workflow state machine (service.py lines 444-545)

An action request is modelled per-request: `ActionRequest` is the stored
row (its `approvals` list embedded, as returned by
`get_action_request`), and `ReqState` couples it with the request's
audit-log rows.  The store helpers `add_action_approval`,
`add_action_audit_log` and `get_action_request` are list appends and
re-reads of this state.
-/

/-- One embedded approval row ({approved_by, decision, notes}, spec §3);
`decided_at` carries no claim and is omitted. -/
structure Approval where
  approved_by : String
  decision : String
  notes : Option String
deriving DecidableEq

/-- The four request statuses (spec §3 / §4.7). -/
inductive Status where
  | pending
  | approved
  | rejected
  | executed
deriving DecidableEq

/-- A stored action request row, as read back by `get_action_request`.
Identifier, incident id, payload and timestamps carry no claim and are
omitted. -/
structure ActionRequest where
  action_type : String
  status : Status
  approvals : List Approval
  executed_by : Option String
deriving DecidableEq

/-- One audit-log row ({event_type, actor}); `details` and `created_at`
carry no claim and are omitted. -/
structure AuditEntry where
  event_type : String
  actor : String
deriving DecidableEq

/-- A request's full stored state: the row plus its audit-log rows. -/
structure ReqState where
  req : ActionRequest
  audit : List AuditEntry
deriving DecidableEq

/-- Modelled from the spec: `update_action_request_status` lives in
`utils/database`, which is not among the sources under review (only its
callers in `utils/drone/service.py` are).  Spec §4.7: states
**pending** → **approved** → **executed**, with **rejected** a terminal
sink reachable from pending; "Executing an already-executed request MUST
fail with a non-fatal error (\"already executed\" — reject at state
machine)"; "Rejected requests cannot be resurrected."  The model
accordingly refuses any transition out of `executed` with the error
"already executed", refuses leaving `rejected`, permits re-setting the
current status as a no-op (the approve path may re-set `approved` or
`rejected`), and performs the spec's three forward transitions.  A
refusal returns the row unchanged together with the error. -/
def update_action_request_status (req : ActionRequest) (new : Status)
    (executed_by : Option String) : ActionRequest × Option String :=
  match req.status, new with
  | Status.executed, _ => (req, some "already executed")
  | Status.rejected, Status.rejected => (req, none)
  | Status.rejected, _ => (req, some "rejected request cannot be resurrected")
  | Status.pending, Status.pending => (req, none)
  | Status.pending, Status.approved => ({req with status := Status.approved}, none)
  | Status.pending, Status.rejected => ({req with status := Status.rejected}, none)
  | Status.pending, Status.executed => (req, some "request is not approved")
  | Status.approved, Status.approved => (req, none)
  | Status.approved, Status.executed =>
      ({req with status := Status.executed, executed_by := executed_by}, none)
  | Status.approved, _ => (req, some "invalid status transition")

/-- Python's `len([a for a in approvals if str(a.get('decision')).lower()
== 'approved'])` (service.py lines 497 and 523). -/
def approvedCount (approvals : List Approval) : Nat :=
  (approvals.filter (fun a => pyLower a.decision == "approved")).length

namespace DroneOpsService

/-- Embeds `DroneOpsService.approve_action` (service.py lines 469-510):
idempotence guard on the lower-cased approver name; append the approval
and an `approval` audit row; recount; on decision `rejected` set status
`rejected`, else on quorum with status outside {executed, rejected} set
status `approved`; return the re-read row.  A store refusal (modelled
`update_action_request_status` error) leaves the status unchanged. -/
def approve_action (st : ReqState) (approver decision : String)
    (notes : Option String) : ReqState × ActionRequest :=
  if st.req.approvals.any (fun a => pyLower a.approved_by == pyLower approver) then
    (st, st.req)
  else
    let req1 : ActionRequest :=
      { st.req with approvals := st.req.approvals ++ [⟨approver, decision, notes⟩] }
    let audit1 := st.audit ++ [⟨"approval", approver⟩]
    let required := required_approvals (some req1.action_type)
    let req2 :=
      if pyLower decision == "rejected" then
        (update_action_request_status req1 Status.rejected none).1
      else if required ≤ approvedCount req1.approvals ∧
          req1.status ≠ Status.executed ∧ req1.status ≠ Status.rejected then
        (update_action_request_status req1 Status.approved none).1
      else req1
    (⟨req2, audit1⟩, req2)

/-- Embeds `DroneOpsService.execute_action` (service.py lines 512-545):
guard on the armed policy (`armed` is the `.get('armed')` of the policy
snapshot read there), then on the approval quorum, then set status
`executed` through the store and append an `executed` audit row.  A
store refusal surfaces as the non-fatal error with no state change. -/
def execute_action (st : ReqState) (armed : Bool) (actor : String) :
    ReqState × Except String ActionRequest :=
  if !armed then (st, Except.error "Action plane is not armed")
  else
    let approved_count := approvedCount st.req.approvals
    let required := required_approvals (some st.req.action_type)
    if approved_count < required then
      (st, Except.error ("Insufficient approvals (" ++ toString approved_count
        ++ "/" ++ toString required ++ ")"))
    else
      match update_action_request_status st.req Status.executed (some actor) with
      | (_, some e) => (st, Except.error e)
      | (req2, none) =>
          (⟨req2, st.audit ++ [⟨"executed", actor⟩]⟩, Except.ok req2)

end DroneOpsService

/-- The invariant of spec §3: at most one approval per approver per
request, compared case-insensitively on the approver name. -/
def AtMostOnePerApprover (approvals : List Approval) : Prop :=
  approvals.Pairwise (fun a b => pyLower a.approved_by ≠ pyLower b.approved_by)

/-!
## Python values (the payload dictionaries of `remote_id.py` and
`detector.py`)

`PyVal` models the dynamically typed JSON-ish values the decoder and
detectors traverse.  Python ints and floats are collapsed into one exact
rational constructor.
-/

/-- A dynamically typed Python value, as traversed by the decoder and
the detectors. -/
inductive PyVal where
  | none
  | bool (b : Bool)
  | num (q : ℚ)
  | str (s : String)
  | list (xs : List PyVal)
  | dict (kvs : List (String × PyVal))

/-- Python truthiness: `None`, `False`, `0`, `''`, `[]`, `{}` are falsy,
everything else truthy. -/
def pyTruthy : PyVal → Bool
  | PyVal.none => false
  | PyVal.bool b => b
  | PyVal.num q => decide (q ≠ 0)
  | PyVal.str s => !s.data.isEmpty
  | PyVal.list xs => !xs.isEmpty
  | PyVal.dict kvs => !kvs.isEmpty

/-- `PyVal.none` test (`x is None`). -/
def pyIsNone : PyVal → Bool
  | PyVal.none => true
  | _ => false

/-- Python `key in data` for a dictionary. -/
def dictHasKey (kvs : List (String × PyVal)) (k : String) : Bool :=
  kvs.any (fun p => p.1 == k)

/-- Python `data.get(key)`: the value, or `None` when absent. -/
def dictGet (kvs : List (String × PyVal)) (k : String) : PyVal :=
  match kvs.find? (fun p => p.1 == k) with
  | some p => p.2
  | Option.none => PyVal.none

/-- Python `str(v)`, as far as the claims exercise it: strings render as
themselves.  The renderings of numbers, booleans and containers are
simplified (no claim inspects them — they can only flow into the opaque
`uas_id` / `operator_id` / identifier strings). -/
def pyStr : PyVal → String
  | PyVal.none => "None"
  | PyVal.bool b => if b then "True" else "False"
  | PyVal.num q => if q.den = 1 then toString q.num else toString q
  | PyVal.str s => s
  | PyVal.list _ => "[]"
  | PyVal.dict _ => "\x7b\x7d"

/-- Python `a or b` on values: `a` if truthy, else `b`. -/
def pyOr (a b : PyVal) : PyVal := if pyTruthy a then a else b

/-- Numeric value of a digit run, most significant first. -/
def digitsVal (cs : List Char) : Nat :=
  cs.foldl (fun acc c => acc * 10 + (c.toNat - 48)) 0

/-- Python `float(str)` on the common decimal forms: optional
whitespace, optional sign, digits with an optional fractional part and
an optional exponent.  (Python additionally accepts `inf`/`nan` and
underscore separators; no claim exercises those.) -/
def parseFloat (s : String) : Option ℚ :=
  let cs := (pyStrip s).data
  let sgn : ℚ := match cs with
    | '-' :: _ => -1
    | _ => 1
  let cs1 := match cs with
    | '+' :: rest => rest
    | '-' :: rest => rest
    | _ => cs
  let ip := cs1.takeWhile Char.isDigit
  let cs2 := cs1.dropWhile Char.isDigit
  let fp := match cs2 with
    | '.' :: rest => rest.takeWhile Char.isDigit
    | _ => []
  let cs3 := match cs2 with
    | '.' :: rest => rest.dropWhile Char.isDigit
    | _ => cs2
  if ip.isEmpty && fp.isEmpty then Option.none
  else
    let mant : ℚ := (digitsVal ip : ℚ) + (digitsVal fp : ℚ) / (10 : ℚ) ^ fp.length
    match cs3 with
    | [] => some (sgn * mant)
    | e :: rest =>
      if e = 'e' || e = 'E' then
        let esgn : Int := match rest with
          | '-' :: _ => -1
          | _ => 1
        let rest1 := match rest with
          | '+' :: r => r
          | '-' :: r => r
          | _ => rest
        let ed := rest1.takeWhile Char.isDigit
        let rest2 := rest1.dropWhile Char.isDigit
        if ed.isEmpty || !rest2.isEmpty then Option.none
        else some (sgn * mant * (10 : ℚ) ^ (esgn * (digitsVal ed : Int)))
      else Option.none

/-!
## Remote-ID decoder (`utils/drone/remote_id.py`)

The text-payload normalization (`_normalize_input`, lines 53-74: UTF-8
decode, trim, JSON-first parse, opaque-raw fallback) happens upstream of
the field extraction and delivers a mapping `data` plus a
`source_format` tag in {dict, json, empty, raw}; `decode_remote_id_payload`
is embedded over that normalized pair.  The returned `raw` echo of the
input carries no claim and is omitted from the record.
-/

/-- Key set for the UAS identifier (remote_id.py line 9). -/
def DRONE_ID_KEYS : List String :=
  ["uas_id", "drone_id", "serial_number", "serial", "id", "uasId"]

/-- Key set for the operator identifier (remote_id.py line 10). -/
def OPERATOR_ID_KEYS : List String :=
  ["operator_id", "pilot_id", "operator", "operatorId"]

/-- Key set for the latitude (remote_id.py line 11). -/
def LAT_KEYS : List String := ["lat", "latitude"]

/-- Key set for the longitude (remote_id.py line 12). -/
def LON_KEYS : List String := ["lon", "lng", "longitude"]

/-- Key set for the altitude (remote_id.py line 13). -/
def ALT_KEYS : List String := ["alt", "altitude", "altitude_m", "height"]

/-- Key set for the speed (remote_id.py line 14). -/
def SPEED_KEYS : List String := ["speed", "speed_mps", "ground_speed"]

/-- Key set for the heading (remote_id.py line 15). -/
def HEADING_KEYS : List String := ["heading", "heading_deg", "course"]

/-- Embeds `_get_nested` (remote_id.py lines 18-29) for the two-segment
paths `f'{root}.{key}'` used by `_pick`: both a missing path and a path
holding Python `None` yield `PyVal.none`, exactly as indistinguishable
as they are to the Python caller's `is not None` test. -/
def getNested2 (data : List (String × PyVal)) (root key : String) : PyVal :=
  match dictGet data root with
  | PyVal.dict kvs2 => dictGet kvs2 key
  | _ => PyVal.none

/-- The top-level loop of `_pick` (remote_id.py lines 42-44): the first
*present* key returns its value, even when that value is `None`. -/
def pickTop (data : List (String × PyVal)) : List String → Option PyVal
  | [] => Option.none
  | k :: ks => if dictHasKey data k then some (dictGet data k) else pickTop data ks

/-- The inner key loop of the nested probe of `_pick` (remote_id.py
lines 45-49): first non-`None` nested hit under a given root. -/
def pickNestedKeys (data : List (String × PyVal)) (root : String) :
    List String → PyVal
  | [] => PyVal.none
  | k :: ks =>
    let hit := getNested2 data root k
    if pyIsNone hit then pickNestedKeys data root ks else hit

/-- The outer root loop of the nested probe of `_pick`. -/
def pickNestedAll (data : List (String × PyVal)) (keys : List String) :
    List String → PyVal
  | [] => PyVal.none
  | r :: rs =>
    let hit := pickNestedKeys data r keys
    if pyIsNone hit then pickNestedAll data keys rs else hit

/-- Embeds `_pick` (remote_id.py lines 41-50). -/
def pick (data : List (String × PyVal)) (keys roots : List String) : PyVal :=
  match pickTop data keys with
  | some v => v
  | Option.none => pickNestedAll data keys roots

/-- Embeds `_coerce_float` (remote_id.py lines 32-38): `None` and `''`
give `None`; numbers and booleans coerce; parseable strings parse;
anything else is swallowed to `None`. -/
def coerceFloat : PyVal → Option ℚ
  | PyVal.none => Option.none
  | PyVal.str s => if s = "" then Option.none else parseFloat s
  | PyVal.num q => some q
  | PyVal.bool b => some (if b then 1 else 0)
  | PyVal.list _ => Option.none
  | PyVal.dict _ => Option.none

/-- The normalized record returned by `decode_remote_id_payload`
(remote_id.py lines 103-115), minus the `raw` echo. -/
structure RemoteIdRecord where
  detected : Bool
  source_format : String
  uas_id : Option String
  operator_id : Option String
  lat : Option ℚ
  lon : Option ℚ
  altitude_m : Option ℚ
  speed_mps : Option ℚ
  heading_deg : Option ℚ
  confidence : ℚ
deriving DecidableEq

/-- Embeds `decode_remote_id_payload` (remote_id.py lines 77-121) over
the normalized `(data, source_format)` pair: probe the key sets at top
level and under the nested roots, coerce the numeric fields, accumulate
the confidence (+0.35 truthy uas id, +0.35 lat and lon, +0.15 altitude,
+0.15 truthy operator id; `min(1.0, round(·, 3))`), and set `detected`. -/
def decode_remote_id_payload (data : List (String × PyVal)) (fmt : String) :
    RemoteIdRecord :=
  let drone_id := pick data DRONE_ID_KEYS ["remote_id", "message", "uas"]
  let operator_id := pick data OPERATOR_ID_KEYS ["remote_id", "message", "operator"]
  let lat := coerceFloat (pick data LAT_KEYS ["remote_id", "message", "position"])
  let lon := coerceFloat (pick data LON_KEYS ["remote_id", "message", "position"])
  let altitude_m :=
    coerceFloat (pick data ALT_KEYS ["remote_id", "message", "position"])
  let speed_mps :=
    coerceFloat (pick data SPEED_KEYS ["remote_id", "message", "position"])
  let heading_deg :=
    coerceFloat (pick data HEADING_KEYS ["remote_id", "message", "position"])
  let confidence0 : ℚ :=
    (if pyTruthy drone_id then 35/100 else 0)
    + (if lat.isSome && lon.isSome then 35/100 else 0)
    + (if altitude_m.isSome then 15/100 else 0)
    + (if pyTruthy operator_id then 15/100 else 0)
  let confidence := min 1 (round3 confidence0)
  { detected := pyTruthy drone_id
      || (lat.isSome && lon.isSome && decide ((35 : ℚ)/100 ≤ confidence))
    source_format := fmt
    uas_id := if pyTruthy drone_id then some (pyStrip (pyStr drone_id))
      else Option.none
    operator_id := if pyTruthy operator_id then some (pyStrip (pyStr operator_id))
      else Option.none
    lat := lat
    lon := lon
    altitude_m := altitude_m
    speed_mps := speed_mps
    heading_deg := heading_deg
    confidence := confidence }

/-!
## Signature detectors (`utils/drone/detector.py`)

The SSID regexes of detector.py lines 10-16 all have the shape
`(^|[-_\s])(token|...)([-_\s]|$)` with IGNORECASE; scoring only asks
whether *any* pattern matches, so the five alternation groups are
flattened into one token list and the boundary search is implemented
directly.  The BT name regexes (lines 29-35) are plain substring
alternations, except `remote\s?id` which gets its own scanner.
-/

/-- The brand/generic tokens of `SSID_PATTERNS` (detector.py lines
10-16), flattened across the five alternatives. -/
def SSID_TOKENS : List String :=
  ["dji", "mavic", "phantom", "inspire", "matrice", "mini",
   "parrot", "anafi", "bebop",
   "autel", "evo",
   "skydio", "yuneec",
   "uas", "uav", "drone", "rid", "opendroneid"]

/-- The boundary class `[-_\s]` of the SSID patterns (`\s` is Python's
whitespace class). -/
def isSepChar (c : Char) : Bool := c = '-' || c = '_' || pyIsSpace c

/-- Token match at the head of `cs`, its right edge at end-of-string or
a separator. -/
def tokenAtHead (tok cs : List Char) : Bool :=
  tok.isPrefixOf cs &&
    (match cs.drop tok.length with
     | [] => true
     | c :: _ => isSepChar c)

/-- Scan every position of `cs` for a boundary-delimited occurrence of
`tok`; `atB` records whether the current position follows
start-of-string or a separator. -/
def tokenScan (tok : List Char) : Bool → List Char → Bool
  | atB, [] => atB && tokenAtHead tok []
  | atB, c :: rest =>
    (atB && tokenAtHead tok (c :: rest)) || tokenScan tok (isSepChar c) rest

/-- Does any `SSID_PATTERNS` regex match the SSID (case-insensitive)? -/
def ssidPatternHit (ssid : String) : Bool :=
  SSID_TOKENS.any (fun t => tokenScan t.data true (pyLower ssid).data)

/-- The OUI table `DRONE_OUI_PREFIXES` (detector.py lines 18-27). -/
def DRONE_OUI_PREFIXES : List (String × String) :=
  [("60:60:1F", "DJI"), ("90:3A:E6", "DJI"), ("34:D2:62", "DJI"),
   ("90:3A:AF", "DJI"), ("00:12:1C", "Parrot"), ("90:03:B7", "Parrot"),
   ("48:1C:B9", "Autel"), ("AC:89:95", "Skydio")]

/-- Table lookup on the first 8 characters of a normalized BSSID. -/
def ouiBrand (p : String) : Option String :=
  (DRONE_OUI_PREFIXES.find? (fun kv => kv.1 == p)).map (fun kv => kv.2)

/-- Plain substring search over character lists. -/
def hasSub : List Char → List Char → Bool
  | cs, sub =>
    match cs with
    | [] => sub.isEmpty
    | _ :: rest => sub.isPrefixOf cs || hasSub rest sub

/-- The plain-substring tokens of `BT_NAME_PATTERNS` (detector.py lines
29-35), minus `remote\s?id` which is scanned separately. -/
def BT_NAME_TOKENS : List String :=
  ["dji", "mavic", "phantom", "inspire", "matrice", "mini",
   "parrot", "anafi", "bebop",
   "autel", "evo",
   "skydio", "yuneec",
   "opendroneid", "uas", "uav", "drone"]

/-- Occurrence of `remote\s?id`: "remote", at most one whitespace
character, then "id". -/
def remoteIdScan : List Char → Bool
  | [] => false
  | c :: rest =>
    (['r', 'e', 'm', 'o', 't', 'e'].isPrefixOf (c :: rest) &&
      (let after := (c :: rest).drop 6
       ['i', 'd'].isPrefixOf after ||
         (match after with
          | w :: after2 => pyIsSpace w && ['i', 'd'].isPrefixOf after2
          | [] => false)))
    || remoteIdScan rest

/-- Does any `BT_NAME_PATTERNS` regex match the name/manufacturer
haystack (case-insensitive, unanchored)? -/
def btNamePatternHit (haystack : String) : Bool :=
  let cs := (pyLower haystack).data
  BT_NAME_TOKENS.any (fun t => hasSub cs t.data) || remoteIdScan cs

/-- `REMOTE_ID_UUID_HINTS` (detector.py line 37). -/
def REMOTE_ID_UUID_HINTS : List String := ["fffa", "faff", "fffb"]

/-- Python `str.replace('-', '')`: delete every dash. -/
def pyRemoveDashes (s : String) : String :=
  String.mk (s.data.filter (fun c => c ≠ '-'))

/-- Python `s[-4:]`: the last (up to) four characters. -/
def lastFour (s : String) : String :=
  String.mk ((s.data.reverse.take 4).reverse)

/-- Embeds `_normalize_mac` (detector.py lines 41-45):
`str(value or '').strip().upper().replace('-', ':')`, kept only when at
least 8 characters long. -/
def normalizeMac (v : PyVal) : String :=
  let text := pyReplaceChar (pyUpper (pyStrip (pyStr (pyOr v (PyVal.str ""))))) '-' ':'
  if 8 ≤ text.data.length then text else ""

/-- Embeds `_extract_wifi_event` (detector.py lines 48-57).  The
`network_update` branch (lines 53-54) re-tests `event.get('network')`
being a dict and is unreachable after the first test, so it adds no
case. -/
def extractWifiEvent (event : PyVal) : Option (List (String × PyVal)) :=
  match event with
  | PyVal.dict kvs =>
    match dictGet kvs "network" with
    | PyVal.dict nkvs => some nkvs
    | _ =>
      if dictHasKey kvs "bssid" || dictHasKey kvs "essid" || dictHasKey kvs "ssid"
      then some kvs
      else Option.none
  | _ => Option.none

/-- Embeds `_extract_bt_event` (detector.py lines 60-67). -/
def extractBtEvent (event : PyVal) : Option (List (String × PyVal)) :=
  match event with
  | PyVal.dict kvs =>
    match dictGet kvs "device" with
    | PyVal.dict dkvs => some dkvs
    | _ =>
      if dictHasKey kvs "device_id" || dictHasKey kvs "address" ||
          dictHasKey kvs "name" || dictHasKey kvs "manufacturer_name" ||
          dictHasKey kvs "service_uuids"
      then some kvs
      else Option.none
  | _ => Option.none

/-- A synthesized track point (detector.py lines 112-127). -/
structure TrackRecord where
  lat : ℚ
  lon : ℚ
  altitude_m : Option ℚ
  speed_mps : Option ℚ
  heading_deg : Option ℚ
  quality : ℚ
  source : String
deriving DecidableEq

/-- One emitted detection.  The `payload` member (a diagnostic echo of
the input event plus the reason list) carries no claim and is
omitted. -/
structure Detection where
  source : String
  identifier : String
  classification : String
  confidence : ℚ
  remote_id : Option RemoteIdRecord
  track : Option TrackRecord
deriving DecidableEq

/-- Embeds `_maybe_track_from_remote_id` (detector.py lines 112-127). -/
def maybe_track_from_remote_id (r : RemoteIdRecord) (source : String) :
    Option TrackRecord :=
  if !r.detected then Option.none
  else
    match r.lat, r.lon with
    | some la, some lo =>
      some ⟨la, lo, r.altitude_m, r.speed_mps, r.heading_deg, r.confidence, source⟩
    | _, _ => Option.none

/-- The `bssid` local of `_detect_wifi` (detector.py line 135):
`_normalize_mac(network.get('bssid') or network.get('mac') or
network.get('id'))`. -/
def wifiBssid (network : List (String × PyVal)) : String :=
  normalizeMac (pyOr (dictGet network "bssid")
    (pyOr (dictGet network "mac") (dictGet network "id")))

/-- The `ssid` local of `_detect_wifi` (detector.py line 136):
`str(network.get('essid') or network.get('ssid') or
network.get('display_name') or '').strip()`. -/
def wifiSsid (network : List (String × PyVal)) : String :=
  pyStrip (pyStr (pyOr (dictGet network "essid")
    (pyOr (dictGet network "ssid")
      (pyOr (dictGet network "display_name") (PyVal.str "")))))

/-- The final `score` local of `_detect_wifi` (detector.py lines
141-160): +0.45 on an SSID pattern, +0.45 on a known OUI, then at least
0.75 when the Remote-ID decode of the network reports detected. -/
def wifiScore (network : List (String × PyVal)) : ℚ :=
  let score1 : ℚ := if wifiSsid network ≠ "" ∧ ssidPatternHit (wifiSsid network)
    then 45/100 else 0
  let score2 : ℚ := score1 +
    (if wifiBssid network ≠ "" ∧
        (ouiBrand (String.mk ((wifiBssid network).data.take 8))).isSome
     then 45/100 else 0)
  if (decode_remote_id_payload network "dict").detected then max score2 (75/100)
  else score2

/-- Embeds `_detect_wifi` (detector.py lines 130-180): extract the
network dict, normalize the BSSID, score (`wifiScore`), and emit one
detection iff the score reaches 0.5, identified by the BSSID when
present else the SSID. -/
def detect_wifi (event : PyVal) : List Detection :=
  match extractWifiEvent event with
  | Option.none => []
  | some network =>
    let identifier := if wifiBssid network ≠ "" then wifiBssid network
      else wifiSsid network
    if identifier = "" then []
    else
      let remote_id := decode_remote_id_payload network "dict"
      if wifiScore network < 1/2 then []
      else
        [{ source := "wifi"
           identifier := identifier
           classification := if remote_id.detected then "wifi_drone_remote_id"
             else "wifi_drone_signature"
           confidence := min 1 (round3 (wifiScore network))
           remote_id := if remote_id.detected then some remote_id else Option.none
           track := maybe_track_from_remote_id remote_id "wifi" }]

/-- Embeds `_detect_bluetooth` (detector.py lines 183-241).  A
`service_uuids` value that is not a list is treated as empty (Python
would raise and the caller swallows the event). -/
def detect_bluetooth (event : PyVal) : List Detection :=
  match extractBtEvent event with
  | Option.none => []
  | some device =>
    let address := normalizeMac (pyOr (dictGet device "address")
      (dictGet device "mac"))
    let device_id := pyStrip (pyStr (pyOr (dictGet device "device_id")
      (PyVal.str "")))
    let name := pyStrip (pyStr (pyOr (dictGet device "name") (PyVal.str "")))
    let manufacturer := pyStrip (pyStr (pyOr (dictGet device "manufacturer_name")
      (PyVal.str "")))
    let identifier := if address ≠ "" then address
      else if device_id ≠ "" then device_id else name
    if identifier = "" then []
    else
      let haystack := pyStrip (name ++ " " ++ manufacturer)
      let score1 : ℚ := if haystack ≠ "" ∧ btNamePatternHit haystack
        then 55/100 else 0
      let uuids : List PyVal :=
        match pyOr (dictGet device "service_uuids") (PyVal.list []) with
        | PyVal.list xs => xs
        | _ => []
      let uuidHit := uuids.any (fun u =>
        REMOTE_ID_UUID_HINTS.any
          (fun hint => lastFour (pyLower (pyRemoveDashes (pyStr u))) == hint))
      let score2 : ℚ := if uuidHit then max score1 (7/10) else score1
      let tracker : List (String × PyVal) :=
        match dictGet device "tracker" with
        | PyVal.dict tkvs => tkvs
        | _ => []
      let trackerHit := pyTruthy (dictGet tracker "is_tracker") &&
        hasSub (pyLower (pyStr (pyOr (dictGet tracker "type")
          (PyVal.str "")))).data "drone".data
      let score3 : ℚ := if trackerHit then max score2 (7/10) else score2
      let remote_id := decode_remote_id_payload device "dict"
      let score4 : ℚ := if remote_id.detected then max score3 (75/100) else score3
      if score4 < 55/100 then []
      else
        [{ source := "bluetooth"
           identifier := identifier
           classification := if remote_id.detected then "bluetooth_drone_remote_id"
             else "bluetooth_drone_signature"
           confidence := min 1 (round3 score4)
           remote_id := if remote_id.detected then some remote_id else Option.none
           track := maybe_track_from_remote_id remote_id "bluetooth" }]

/-!
## RF detector (`utils/drone/detector.py` lines 70-109 and 244-277)
-/

/-- Python `round(x, 6)`, as used on extracted frequencies. -/
def round6 (q : ℚ) : ℚ := (round (q * 1000000) : ℤ) / 1000000

/-- The known-band hints `RF_FREQ_HINTS_MHZ` (detector.py line 38). -/
def RF_FREQ_HINTS_MHZ : List ℚ := [315, 43392/100, 868, 915, 1200, 2400, 5800]

/-- Embeds `_closest_freq_delta` (detector.py lines 108-109): minimum
distance to any hint. -/
def closest_freq_delta (f : ℚ) : ℚ :=
  (RF_FREQ_HINTS_MHZ.map (fun h => |f - h|)).foldl min (|f - (315 : ℚ)|)

/-- One attempt of the frequency regex `([0-9]{2,4}(?:\.[0-9]+)?)\s*MHz`
at a fixed position: a 2-4 digit run (a longer run cannot match here —
giving digits back leaves a digit where `\s*MHz` must start), an
optional fraction, arbitrary whitespace, then `MHz` case-insensitively.
Returns the capture group. -/
def freqMatchAt (cs : List Char) : Option (List Char) :=
  let ds := cs.takeWhile Char.isDigit
  if 2 ≤ ds.length ∧ ds.length ≤ 4 then
    let rest := cs.drop ds.length
    let mhzAfter : List Char → Bool := fun l =>
      ['m', 'h', 'z'].isPrefixOf ((l.dropWhile pyIsSpace).take 3 |>.map pyLowerChar)
    match rest with
    | '.' :: r2 =>
      let fs := r2.takeWhile Char.isDigit
      if !fs.isEmpty && mhzAfter (r2.drop fs.length) then
        some (ds ++ '.' :: fs)
      else if mhzAfter rest then some ds
      else Option.none
    | _ => if mhzAfter rest then some ds else Option.none
  else Option.none

/-- Leftmost match of the frequency regex (`re.search`). -/
def freqSearch : List Char → Option (List Char)
  | [] => Option.none
  | c :: rest =>
    match freqMatchAt (c :: rest) with
    | some g => some g
    | Option.none => freqSearch rest

/-- The numeric-candidate loop of `_extract_frequency_mhz` (detector.py
lines 85-95): skip `None`s and non-coercible values, scale >100000 as
Hz, accept 1..7000 MHz rounded to 6 decimals. -/
def freqFromCandidates : List PyVal → Option ℚ
  | [] => Option.none
  | v :: rest =>
    match v with
    | PyVal.none => freqFromCandidates rest
    | _ =>
      match coerceFloat v with
      | Option.none => freqFromCandidates rest
      | some f0 =>
        let f := if 100000 < f0 then f0 / 1000000 else f0
        if 1 ≤ f ∧ f ≤ 7000 then some (round6 f) else freqFromCandidates rest

/-- Embeds `_extract_frequency_mhz` (detector.py lines 70-105):
`frequency_mhz`, `frequency`, a scaled `frequency_hz`, then the regex
over `text`/`message` (whose result is neither range-checked nor
rounded). -/
def extract_frequency_mhz (event : PyVal) : Option ℚ :=
  match event with
  | PyVal.dict kvs =>
    let hzExtra : List PyVal :=
      if dictHasKey kvs "frequency_hz" then
        match coerceFloat (dictGet kvs "frequency_hz") with
        | some q => [PyVal.num (q / 1000000)]
        | Option.none => []
      else []
    match freqFromCandidates
        ([dictGet kvs "frequency_mhz", dictGet kvs "frequency"] ++ hzExtra) with
    | some f => some f
    | Option.none =>
      let text := pyStr (pyOr (dictGet kvs "text")
        (pyOr (dictGet kvs "message") (PyVal.str "")))
      match freqSearch text.data with
      | some g => parseFloat (String.mk g)
      | Option.none => Option.none
  | _ => Option.none

/-- Python `f'{freq_mhz:.3f}'` for the frequencies at hand (nonnegative;
ties modelled by `round`). -/
def format3 (q : ℚ) : String :=
  let n : ℤ := round (q * 1000)
  let fp := (n % 1000).toNat
  toString (n / 1000) ++ "." ++
    (if fp < 10 then "00" else if fp < 100 then "0" else "") ++ toString fp

/-- The `event_id` of `_detect_rf` (detector.py line 259):
`str(event.get('capture_id') or event.get('id') or f'{freq_mhz:.3f}MHz')`. -/
def rfEventId (kvs : List (String × PyVal)) (f : ℚ) : String :=
  pyStr (pyOr (dictGet kvs "capture_id")
    (pyOr (dictGet kvs "id") (PyVal.str (format3 f ++ "MHz"))))

/-- Embeds `_detect_rf` (detector.py lines 244-277): extract a
frequency, drop it if the closest known band is over 35 MHz away, else
emit one detection with confidence
`min(1.0, round(max(0.5, 0.85 - delta/100), 3))`. -/
def detect_rf (event : PyVal) : List Detection :=
  match event with
  | PyVal.dict kvs =>
    match extract_frequency_mhz event with
    | Option.none => []
    | some f =>
      let delta := closest_freq_delta f
      if 35 < delta then []
      else
        let score : ℚ := max (1/2) (85/100 - delta / 100)
        [{ source := "rf"
           identifier := "rf:" ++ rfEventId kvs f
           classification := "rf_drone_link_activity"
           confidence := min 1 (round3 score)
           remote_id := Option.none
           track := Option.none }]
  | _ => []

/-- Embeds the dispatch of `detect_from_event` (detector.py lines
280-305) for the three carrier branches.  The opportunistic Remote-ID
fallback normalizes arbitrary payloads (including JSON text) through
`_normalize_input`; the model covers its mapping case structurally and
treats non-mapping events as yielding no data (a JSON-parsed text event
could additionally decode in Python; no claim reaches that branch). -/
def detect_from_event (mode : Option String) (event : PyVal) : List Detection :=
  let mode_lower := pyLower (mode.getD "")
  if pyStartsWith mode_lower "wifi" then detect_wifi event
  else if pyStartsWith mode_lower "bluetooth" || pyStartsWith mode_lower "bt" then
    detect_bluetooth event
  else if mode_lower == "subghz" || mode_lower == "listening_scanner" ||
      mode_lower == "waterfall" || mode_lower == "listening" then
    detect_rf event
  else
    let data : List (String × PyVal) :=
      match event with
      | PyVal.dict kvs => kvs
      | _ => []
    let fmt := match event with
      | PyVal.dict _ => "dict"
      | _ => "raw"
    let remote_id := decode_remote_id_payload data fmt
    if remote_id.detected then
      let identifier := match remote_id.uas_id, remote_id.operator_id with
        | some u, _ => if u ≠ "" then u
            else match remote_id.operator_id with
              | some o => if o ≠ "" then o else "remote_id"
              | Option.none => "remote_id"
        | Option.none, some o => if o ≠ "" then o else "remote_id"
        | Option.none, Option.none => "remote_id"
      [{ source := if mode_lower ≠ "" then mode_lower else "unknown"
         identifier := identifier
         classification := "remote_id_detected"
         confidence := if remote_id.confidence ≠ 0 then remote_id.confidence
           else 6/10
         remote_id := some remote_id
         track := maybe_track_from_remote_id remote_id
           (if mode_lower ≠ "" then mode_lower else "unknown") }]
    else []

/-!
## Canonical JSON (`json.dumps(..., sort_keys=True, separators=(',', ':'))`)
and SHA-256, for the evidence manifest builder (service.py lines 551-608)

JSON values are modelled with integer numerics: every number the
manifest builder itself writes (ids and the three counts) is an
integer; store rows ride along as opaque `Json` values.  SHA-256 is
transcribed from FIPS 180-4 (the semantics of `hashlib.sha256`) over
byte lists, with 32-bit words as naturals reduced mod 2^32.
-/

/-- A JSON value as assembled by the manifest builder. -/
inductive Json where
  | null
  | bool (b : Bool)
  | int (n : Int)
  | str (s : String)
  | arr (xs : List Json)
  | obj (kvs : List (String × Json))

/-- The sixteen lower-case hex characters. -/
def hexChars : List Char := ("0123456789abcdef" : String).data

/-- Lower-case hex digit (every caller passes a value below 16). -/
def hexDigit (n : Nat) : Char := hexChars.getD n 'f'

/-- Four hex digits of a 16-bit value. -/
def hex4 (n : Nat) : List Char :=
  [hexDigit (n / 4096 % 16), hexDigit (n / 256 % 16),
   hexDigit (n / 16 % 16), hexDigit (n % 16)]

/-- One character under `json.dumps`'s default `ensure_ascii=True`
escaping: the two-character escapes, `\uXXXX` for other control or
non-ASCII characters (split into a surrogate pair beyond the BMP), and
the character itself otherwise. -/
def jsonEscapeChar (c : Char) : List Char :=
  if c = '"' then ['\\', '"']
  else if c = '\\' then ['\\', '\\']
  else if c = '\n' then ['\\', 'n']
  else if c = '\t' then ['\\', 't']
  else if c = '\r' then ['\\', 'r']
  else if c.toNat = 8 then ['\\', 'b']
  else if c.toNat = 12 then ['\\', 'f']
  else if c.toNat < 32 ∨ 126 < c.toNat then
    if c.toNat ≤ 65535 then '\\' :: 'u' :: hex4 c.toNat
    else
      let v := c.toNat - 65536
      ('\\' :: 'u' :: hex4 (55296 + v / 1024)) ++
        ('\\' :: 'u' :: hex4 (56320 + v % 1024))
  else [c]

/-- A JSON string literal: quoted and escaped. -/
def jsonQuote (s : String) : String :=
  String.mk ('"' :: s.data.foldr (fun c acc => jsonEscapeChar c ++ acc) ['"'])

/-- Python string `<` (code-point lexicographic) as the key order of
`sorted`/`sort_keys`. -/
def keyLe (a b : String) : Bool := !(decide (b < a))

/-- Insertion step of the stable ascending key sort. -/
def insertPair (p : String × String) :
    List (String × String) → List (String × String)
  | [] => [p]
  | q :: rest => if keyLe p.1 q.1 then p :: q :: rest else q :: insertPair p rest

/-- Stable ascending sort by key, as `sort_keys=True` orders each
object's items. -/
def sortPairs (l : List (String × String)) : List (String × String) :=
  l.foldr insertPair []

/-- Comma join with no whitespace (the `','` item separator). -/
def joinComma : List String → String
  | [] => ""
  | [s] => s
  | s :: rest => s ++ "," ++ joinComma rest

mutual

/-- Embeds `json.dumps(x, sort_keys=True, separators=(',', ':'))`: keys
sorted lexicographically at every nesting level, `,` between items, `:`
between key and value, no whitespace.  Each object's values are
serialized first and the (key, text) pairs then sorted — key order does
not affect the values' own serialization. -/
def jsonSerialize : Json → String
  | Json.null => "null"
  | Json.bool true => "true"
  | Json.bool false => "false"
  | Json.int n => toString n
  | Json.str s => jsonQuote s
  | Json.arr xs => "[" ++ joinComma (serializeArr xs) ++ "]"
  | Json.obj kvs =>
    "\x7b" ++ joinComma ((sortPairs (serializeKVs kvs)).map
      (fun p => jsonQuote p.1 ++ ":" ++ p.2)) ++ "\x7d"

/-- Serialization of an array's items, in order. -/
def serializeArr : List Json → List String
  | [] => []
  | x :: rest => jsonSerialize x :: serializeArr rest

/-- Serialization of an object's values, keys carried along. -/
def serializeKVs : List (String × Json) → List (String × String)
  | [] => []
  | (k, v) :: rest => (k, jsonSerialize v) :: serializeKVs rest

end

/-- UTF-8 bytes of one character. -/
def utf8EncodeChar (c : Char) : List Nat :=
  let v := c.toNat
  if v < 128 then [v]
  else if v < 2048 then [192 + v / 64, 128 + v % 64]
  else if v < 65536 then [224 + v / 4096, 128 + v / 64 % 64, 128 + v % 64]
  else [240 + v / 262144, 128 + v / 4096 % 64, 128 + v / 64 % 64, 128 + v % 64]

/-- UTF-8 encoding of a string (`.encode('utf-8')`). -/
def utf8Bytes (s : String) : List Nat :=
  s.data.foldr (fun c acc => utf8EncodeChar c ++ acc) []

/-- Reduction to a 32-bit word. -/
def w32 (n : Nat) : Nat := n % 4294967296

/-- 32-bit right rotation. -/
def rotr32 (k x : Nat) : Nat := w32 (x / 2 ^ k + x % 2 ^ k * 2 ^ (32 - k))

/-- Logical right shift. -/
def shr (k x : Nat) : Nat := x / 2 ^ k

/-- Three-way xor. -/
def xor3 (a b c : Nat) : Nat := Nat.xor (Nat.xor a b) c

/-- FIPS 180-4 Σ₀. -/
def bsig0 (x : Nat) : Nat := xor3 (rotr32 2 x) (rotr32 13 x) (rotr32 22 x)

/-- FIPS 180-4 Σ₁. -/
def bsig1 (x : Nat) : Nat := xor3 (rotr32 6 x) (rotr32 11 x) (rotr32 25 x)

/-- FIPS 180-4 σ₀. -/
def ssig0 (x : Nat) : Nat := xor3 (rotr32 7 x) (rotr32 18 x) (shr 3 x)

/-- FIPS 180-4 σ₁. -/
def ssig1 (x : Nat) : Nat := xor3 (rotr32 17 x) (rotr32 19 x) (shr 10 x)

/-- FIPS 180-4 Ch. -/
def chf (x y z : Nat) : Nat :=
  Nat.xor (Nat.land x y) (Nat.land (Nat.xor x 4294967295) z)

/-- FIPS 180-4 Maj. -/
def majf (x y z : Nat) : Nat :=
  Nat.xor (Nat.xor (Nat.land x y) (Nat.land x z)) (Nat.land y z)

/-- The 64 SHA-256 round constants, in decimal. -/
def sha256K : List Nat :=
  [1116352408, 1899447441, 3049323471, 3921009573,
   961987163, 1508970993, 2453635748, 2870763221,
   3624381080, 310598401, 607225278, 1426881987,
   1925078388, 2162078206, 2614888103, 3248222580,
   3835390401, 4022224774, 264347078, 604807628,
   770255983, 1249150122, 1555081692, 1996064986,
   2554220882, 2821834349, 2952996808, 3210313671,
   3336571891, 3584528711, 113926993, 338241895,
   666307205, 773529912, 1294757372, 1396182291,
   1695183700, 1986661051, 2177026350, 2456956037,
   2730485921, 2820302411, 3259730800, 3345764771,
   3516065817, 3600352804, 4094571909, 275423344,
   430227734, 506948616, 659060556, 883997877,
   958139571, 1322822218, 1537002063, 1747873779,
   1955562222, 2024104815, 2227730452, 2361852424,
   2428436474, 2756734187, 3204031479, 3329325298]

/-- The eight working words of the SHA-256 state. -/
structure Hash8 where
  a : Nat
  b : Nat
  c : Nat
  d : Nat
  e : Nat
  f : Nat
  g : Nat
  h : Nat

/-- The SHA-256 initial hash value, in decimal. -/
def sha256H0 : Hash8 :=
  ⟨1779033703, 3144134277, 1013904242, 2773480762,
   1359893119, 2600822924, 528734635, 1541459225⟩

/-- Big-endian 8-byte encoding of the bit length. -/
def bigEndian8 (n : Nat) : List Nat :=
  [n / 2 ^ 56 % 256, n / 2 ^ 48 % 256, n / 2 ^ 40 % 256, n / 2 ^ 32 % 256,
   n / 2 ^ 24 % 256, n / 2 ^ 16 % 256, n / 2 ^ 8 % 256, n % 256]

/-- Big-endian 4-byte encoding of a word. -/
def bigEndian4 (n : Nat) : List Nat :=
  [n / 2 ^ 24 % 256, n / 2 ^ 16 % 256, n / 2 ^ 8 % 256, n % 256]

/-- SHA-256 padding: `0x80`, zeros to 56 mod 64, then the 8-byte
big-endian bit length. -/
def sha256Pad (msg : List Nat) : List Nat :=
  msg ++ 128 :: List.replicate ((64 + 55 - msg.length % 64) % 64) 0
    ++ bigEndian8 (msg.length * 8)

/-- Big-endian 32-bit words from groups of four bytes. -/
def toWordsBE : List Nat → List Nat
  | b0 :: b1 :: b2 :: b3 :: rest =>
    (((b0 * 256 + b1) * 256 + b2) * 256 + b3) :: toWordsBE rest
  | _ => []

/-- The next message-schedule word from the 16 most recent ones. -/
def nextScheduleWord (w : List Nat) : Nat :=
  let i := w.length
  w32 (ssig1 (w.getD (i - 2) 0) + w.getD (i - 7) 0
    + ssig0 (w.getD (i - 15) 0) + w.getD (i - 16) 0)

/-- Extend the 16 block words to the 64 schedule words. -/
def buildSchedule (w16 : List Nat) : List Nat :=
  (List.range 48).foldl (fun w _ => w ++ [nextScheduleWord w]) w16

/-- One SHA-256 compression round. -/
def sha256Round (st : Hash8) (kw : Nat × Nat) : Hash8 :=
  let t1 := w32 (st.h + bsig1 st.e + chf st.e st.f st.g + kw.1 + kw.2)
  let t2 := w32 (bsig0 st.a + majf st.a st.b st.c)
  ⟨w32 (t1 + t2), st.a, st.b, st.c, w32 (st.d + t1), st.e, st.f, st.g⟩

/-- Compress one 64-byte block into the running hash. -/
def sha256Compress (h : Hash8) (block : List Nat) : Hash8 :=
  let w := buildSchedule (toWordsBE block)
  let st := (sha256K.zip w).foldl sha256Round h
  ⟨w32 (h.a + st.a), w32 (h.b + st.b), w32 (h.c + st.c), w32 (h.d + st.d),
   w32 (h.e + st.e), w32 (h.f + st.f), w32 (h.g + st.g), w32 (h.h + st.h)⟩

/-- Split into 64-byte chunks (fuelled by the list length, which always
suffices since each step removes at least one element). -/
def chunks64Go : Nat → List Nat → List (List Nat)
  | 0, _ => []
  | Nat.succ fuel, l =>
    if l.isEmpty then [] else l.take 64 :: chunks64Go fuel (l.drop 64)

/-- The 64-byte blocks of a padded message. -/
def chunks64 (l : List Nat) : List (List Nat) := chunks64Go l.length l

/-- SHA-256 digest bytes (32 of them) of a byte-list message. -/
def sha256Bytes (msg : List Nat) : List Nat :=
  let hh := (chunks64 (sha256Pad msg)).foldl sha256Compress sha256H0
  bigEndian4 hh.a ++ bigEndian4 hh.b ++ bigEndian4 hh.c ++ bigEndian4 hh.d
    ++ bigEndian4 hh.e ++ bigEndian4 hh.f ++ bigEndian4 hh.g ++ bigEndian4 hh.h

/-- Two lower-case hex characters per byte. -/
def bytesToHexChars : List Nat → List Char
  | [] => []
  | b :: rest => hexDigit (b / 16) :: hexDigit (b % 16) :: bytesToHexChars rest

/-- `hashlib.sha256(...).hexdigest()`. -/
def sha256Hex (msg : List Nat) : String :=
  String.mk (bytesToHexChars (sha256Bytes msg))

/-- The incident row fields read by the manifest builder (service.py
lines 570-581); `opened_at`/`closed_at` ride along as stored
(string or null), artifacts as opaque rows. -/
structure IncidentRow where
  id : Int
  title : String
  status : String
  severity : String
  opened_at : Json
  closed_at : Json
  artifacts : List Json

/-- The `manifest_core` mapping (service.py lines 568-584), assembled
from the incident row, the incident's action requests and their
concatenated audit logs (the store reads
`list_action_requests`/`list_action_audit_logs` deliver the two row
lists). -/
def manifestCoreKVs (generated_at : String) (incident : IncidentRow)
    (action_requests action_audit : List Json) : List (String × Json) :=
  [("generated_at", Json.str generated_at),
   ("incident", Json.obj
     [("id", Json.int incident.id), ("title", Json.str incident.title),
      ("status", Json.str incident.status),
      ("severity", Json.str incident.severity),
      ("opened_at", incident.opened_at), ("closed_at", incident.closed_at)]),
   ("artifact_count", Json.int incident.artifacts.length),
   ("action_request_count", Json.int action_requests.length),
   ("audit_event_count", Json.int action_audit.length),
   ("artifacts", Json.arr incident.artifacts),
   ("action_requests", Json.arr action_requests),
   ("action_audit", Json.arr action_audit)]

/-- Embeds `DroneOpsService.generate_evidence_manifest` (service.py
lines 551-608): canonicalize `manifest_core`, hash its UTF-8 bytes, and
store the manifest as `manifest_core` plus the `integrity` field
(`{**manifest_core, 'integrity': {'algorithm': 'sha256', 'digest': hex}}`). -/
def generate_evidence_manifest (generated_at : String) (incident : IncidentRow)
    (action_requests action_audit : List Json) : Json :=
  let core := manifestCoreKVs generated_at incident action_requests action_audit
  let canonical := jsonSerialize (Json.obj core)
  let digest := sha256Hex (utf8Bytes canonical)
  Json.obj (core ++ [("integrity", Json.obj
    [("algorithm", Json.str "sha256"), ("digest", Json.str digest)])])

/-- Key lookup in a JSON object (null when absent or not an object). -/
def jsonGet : Json → String → Json
  | Json.obj kvs, k =>
    match kvs.find? (fun p => p.1 == k) with
    | some p => p.2
    | Option.none => Json.null
  | _, _ => Json.null

/-- Removal of one top-level key from a JSON object — the "manifest
body excluding its integrity field". -/
def stripKey (j : Json) (k : String) : Json :=
  match j with
  | Json.obj kvs => Json.obj (kvs.filter (fun p => p.1 ≠ k))
  | other => other

/-- C4: For every action type string A, required_approvals(A) = 1 if the
trimmed, lower-cased A starts with 'passive_', and 2 otherwise (including
empty or null A); the service method and the policy helper agree. -/
theorem required_approvals_matches_passive_rule (A : Option String) :
    required_approvals_for_action A = required_approvals_spec A ∧
    DroneOpsService.required_approvals A = required_approvals_for_action A ∧
    (pyStartsWith (pyLower (pyStrip (A.getD ""))) "passive_" = true →
      required_approvals_for_action A = 1) ∧
    (pyStartsWith (pyLower (pyStrip (A.getD ""))) "passive_" = false →
      required_approvals_for_action A = 2) ∧
    required_approvals_for_action none = 2 ∧
    required_approvals_for_action (some "") = 2 := by
  unfold required_approvals_for_action required_approvals_spec
    DroneOpsService.required_approvals
  refine ⟨rfl, rfl, ?_, ?_, by decide, by decide⟩
  · intro h; simp [h]
  · intro h; simp [h]

/-- Witness for C4: a passive and a non-passive action type from the
repository's own tests evaluate to 1 and 2 respectively. -/
theorem required_approvals_matches_passive_rule_witness :
    required_approvals_for_action (some "passive_scan") = 1 ∧
    required_approvals_for_action (some "wifi_deauth_test") = 2 :=
  ⟨(required_approvals_matches_passive_rule (some "passive_scan")).2.2.1 (by decide),
   (required_approvals_matches_passive_rule (some "wifi_deauth_test")).2.2.2.1 (by decide)⟩

/-- C10: arming with `duration_seconds` equal to 0 or null arms for the
default 900 seconds — the falsy-value fallback to 900 runs before the
clamp to [60, 7200] — so `armed_until = now + 900`, not `now + 60`. -/
theorem arm_falsy_duration_defaults_to_900 (now : ℚ) (actor reason : String)
    (inc : Int) :
    (DroneOpsService.arm_actions now actor reason inc (some 0)).2.armed_until_ts
        = some (now + 900) ∧
    (DroneOpsService.arm_actions now actor reason inc none).2.armed_until_ts
        = some (now + 900) ∧
    some (now + (900 : ℚ)) ≠ some (now + (60 : ℚ)) := by
  refine ⟨?_, ?_, by simp⟩
  · simp [DroneOpsService.arm_actions, DroneOpsService.policy_state_locked,
      clearedPolicy]
  · simp [DroneOpsService.arm_actions, DroneOpsService.policy_state_locked,
      clearedPolicy]

/-- C3 counterexample: the claim asserts that after
`arm(actor, reason, incident, d)` at time t the first `state()` call at
or after wall-clock `t + d` returns `armed = false`.  With t = 0 and
d = 0 the code arms for the default 900 seconds, so the `state()` call
at `t + d = 0` still reports `armed = true`, refuting the claim as
stated. -/
theorem arm_zero_duration_still_armed_at_deadline :
    (DroneOpsService.policy_state_locked 0
      (DroneOpsService.arm_actions 0 "op" "reason" 1 (some 0)).2).1.armed = true := by
  simp [DroneOpsService.arm_actions, DroneOpsService.policy_state_locked,
    clearedPolicy]

/-- C3 (amended): for durations d within the clamp range [60, 7200], the
policy satisfies armed ⇔ (armed_until ≠ null ∧ armed_until > now) at
every read with a non-negative clock, and after `arm` at time t,
`state()` reports armed = true at every instant in [t, t + d) and
armed = false at every instant ≥ t + d, at which point all four arming
fields are lazily cleared. -/
theorem policy_arming_invariant_and_window (t : ℚ) (d : Int)
    (actor reason : String) (inc : Int)
    (hd1 : 60 ≤ d) (hd2 : d ≤ 7200) :
    (∀ (s : PolicyState) (now : ℚ), 0 ≤ now →
       (((DroneOpsService.policy_state_locked now s).1.armed = true) ↔
        ∃ u, (DroneOpsService.policy_state_locked now s).1.armed_until = some u ∧
          now < u)) ∧
    (∀ now : ℚ, t ≤ now → now < t + (d : ℚ) →
       (DroneOpsService.policy_state_locked now
         (DroneOpsService.arm_actions t actor reason inc (some d)).2).1.armed
           = true) ∧
    (∀ now : ℚ, t + (d : ℚ) ≤ now →
       (DroneOpsService.policy_state_locked now
         (DroneOpsService.arm_actions t actor reason inc (some d)).2).1.armed
           = false ∧
       (DroneOpsService.policy_state_locked now
         (DroneOpsService.arm_actions t actor reason inc (some d)).2).2
           = clearedPolicy ∧
       (DroneOpsService.policy_state_locked now
         (DroneOpsService.arm_actions t actor reason inc (some d)).2).1.armed_until
           = none ∧
       (DroneOpsService.policy_state_locked now
         (DroneOpsService.arm_actions t actor reason inc (some d)).2).1.armed_by
           = none ∧
       (DroneOpsService.policy_state_locked now
         (DroneOpsService.arm_actions t actor reason inc (some d)).2).1.arm_reason
           = none ∧
       (DroneOpsService.policy_state_locked now
         (DroneOpsService.arm_actions t actor reason inc
           (some d)).2).1.arm_incident_id = none) := by
  have hd0 : (0 : Int) < d := by omega
  have hdne : d ≠ 0 := by omega
  have heff : max 60 (min 7200 (if d = 0 then (900 : Int) else d)) = d := by
    rw [if_neg hdne, min_eq_right hd2, max_eq_right hd1]
  have harm : (DroneOpsService.arm_actions t actor reason inc (some d)).2
      = ⟨some (t + (d : ℚ)), some actor, some reason, some inc⟩ := by
    have hlt : t < t + (d : ℚ) := by
      have : (0 : ℚ) < (d : ℚ) := by exact_mod_cast hd0
      linarith
    simp [DroneOpsService.arm_actions, DroneOpsService.policy_state_locked, heff,
      hlt]
  refine ⟨?_, ?_, ?_⟩
  · intro s now hnow
    cases hs : s.armed_until_ts with
    | none =>
      simp [DroneOpsService.policy_state_locked, hs, clearedPolicy]
    | some u =>
      by_cases hlt : now < u
      · have hu0 : u ≠ 0 := by intro h0; rw [h0] at hlt; linarith
        simp [DroneOpsService.policy_state_locked, hs, hlt, hu0]
      · simp [DroneOpsService.policy_state_locked, hs, hlt, clearedPolicy]
  · intro now _ hlt
    rw [harm]
    simp [DroneOpsService.policy_state_locked, hlt]
  · intro now hge
    have hnlt : ¬ now < t + (d : ℚ) := by linarith
    rw [harm]
    simp [DroneOpsService.policy_state_locked, hnlt, clearedPolicy]

/-- Witness for the amended C3: arm at t = 0 for 60 seconds; at
now = 30 the state reads armed, at now = 60 it reads disarmed. -/
theorem policy_arming_invariant_and_window_witness :
    (DroneOpsService.policy_state_locked 30
      (DroneOpsService.arm_actions 0 "op" "test" 7 (some 60)).2).1.armed = true ∧
    (DroneOpsService.policy_state_locked 60
      (DroneOpsService.arm_actions 0 "op" "test" 7 (some 60)).2).1.armed = false :=
  ⟨(policy_arming_invariant_and_window 0 60 "op" "test" 7 (by norm_num)
      (by norm_num)).2.1 30 (by norm_num) (by norm_num),
   ((policy_arming_invariant_and_window 0 60 "op" "test" 7 (by norm_num)
      (by norm_num)).2.2 60 (by norm_num)).1⟩

/-- A store refusal never mutates the row: on any error the first
component of `update_action_request_status` is the input row; this holds
in particular for every call on an `executed` or `rejected` row. -/
theorem update_status_of_rejected (r : ActionRequest) (s : Status)
    (e : Option String) (h : r.status = Status.rejected) :
    (update_action_request_status r s e).1 = r := by
  unfold update_action_request_status
  rw [h]
  cases s <;> rfl

/-- Any status update on an already-executed row is refused with the
non-fatal error "already executed" and returns the row unchanged. -/
theorem update_status_of_executed (r : ActionRequest) (s : Status)
    (e : Option String) (h : r.status = Status.executed) :
    update_action_request_status r s e = (r, some "already executed") := by
  unfold update_action_request_status
  rw [h]

/-- No status update takes an `approved` row to `rejected`. -/
theorem update_status_of_approved_ne_rejected (r : ActionRequest) (s : Status)
    (e : Option String) (h : r.status = Status.approved) :
    (update_action_request_status r s e).1.status ≠ Status.rejected := by
  unfold update_action_request_status
  rw [h]
  cases s <;> simp [h]

/-- Status updates never touch the approvals list. -/
theorem update_status_approvals (r : ActionRequest) (s : Status)
    (e : Option String) :
    (update_action_request_status r s e).1.approvals = r.approvals := by
  unfold update_action_request_status
  cases hr : r.status <;> cases s <;> simp [hr]

/-- No status update takes an `approved` or `executed` row to
`rejected`. -/
theorem update_status_of_approved_or_executed_ne (r : ActionRequest) (s : Status)
    (e : Option String)
    (h : r.status = Status.approved ∨ r.status = Status.executed) :
    (update_action_request_status r s e).1.status ≠ Status.rejected := by
  rcases h with h | h
  · exact update_status_of_approved_ne_rejected r s e h
  · rw [update_status_of_executed r s e h]
    simp [h]

/-- C1: executing an already-executed request — even with the policy
armed and the approval quorum met — fails with the non-fatal
"already executed" error from the state machine and leaves the request
(and its audit log) unchanged. -/
theorem execute_already_executed_fails (st : ReqState) (actor : String)
    (h : st.req.status = Status.executed)
    (hq : DroneOpsService.required_approvals (some st.req.action_type)
      ≤ approvedCount st.req.approvals) :
    DroneOpsService.execute_action st true actor
      = (st, Except.error "already executed") := by
  unfold DroneOpsService.execute_action
  simp [update_status_of_executed st.req Status.executed (some actor) h,
    Nat.not_lt.mpr hq]

/-- Witness for C1: a two-approval request already executed, armed
plane, quorum met; re-execution returns exactly the "already executed"
error and the unchanged state. -/
theorem execute_already_executed_fails_witness :
    DroneOpsService.execute_action
      ⟨⟨"wifi_deauth_test", Status.executed,
        [⟨"alice", "approved", none⟩, ⟨"bob", "approved", none⟩], some "op1"⟩,
       [⟨"requested", "op1"⟩]⟩ true "op2"
      = (⟨⟨"wifi_deauth_test", Status.executed,
          [⟨"alice", "approved", none⟩, ⟨"bob", "approved", none⟩], some "op1"⟩,
         [⟨"requested", "op1"⟩]⟩, Except.error "already executed") :=
  execute_already_executed_fails _ "op2" rfl (by decide)

/-- C2: `rejected` is a terminal sink reachable only from `pending`:
from a rejected row neither `approve_action` nor `execute_action`
changes the status, and no `approve_action` or `execute_action` call on
an `approved` or `executed` row moves it to `rejected`. -/
theorem rejected_is_terminal_sink :
    (∀ (st : ReqState) (p d : String) (n : Option String),
        st.req.status = Status.rejected →
        (DroneOpsService.approve_action st p d n).1.req.status = Status.rejected) ∧
    (∀ (st : ReqState) (armed : Bool) (actor : String),
        st.req.status = Status.rejected →
        (DroneOpsService.execute_action st armed actor).1.req.status
          = Status.rejected) ∧
    (∀ (st : ReqState) (p d : String) (n : Option String),
        st.req.status = Status.approved ∨ st.req.status = Status.executed →
        (DroneOpsService.approve_action st p d n).1.req.status ≠ Status.rejected) ∧
    (∀ (st : ReqState) (armed : Bool) (actor : String),
        st.req.status = Status.approved ∨ st.req.status = Status.executed →
        (DroneOpsService.execute_action st armed actor).1.req.status
          ≠ Status.rejected) := by
  refine ⟨?_, ?_, ?_, ?_⟩
  · intro st p d n h
    unfold DroneOpsService.approve_action
    split
    · exact h
    · simp only
      split
      · rw [update_status_of_rejected _ _ _ (by simpa using h)]
        simpa using h
      · rw [if_neg (by simp [h])]
        simpa using h
  · intro st armed actor h
    unfold DroneOpsService.execute_action
    split
    · exact h
    · simp only
      split
      · exact h
      · have hu : update_action_request_status st.req Status.executed (some actor)
            = (st.req, some "rejected request cannot be resurrected") := by
          unfold update_action_request_status
          rw [h]
        rw [hu]
        exact h
  · intro st p d n h
    unfold DroneOpsService.approve_action
    split
    · rcases h with h | h <;> simp [h]
    · simp only
      split
      · exact update_status_of_approved_or_executed_ne _ _ _ h
      · split
        · exact update_status_of_approved_or_executed_ne _ _ _ h
        · rcases h with h | h <;> simp [h]
  · intro st armed actor h
    unfold DroneOpsService.execute_action
    split
    · rcases h with h | h <;> simp [h]
    · simp only
      split
      · rcases h with h | h <;> simp [h]
      · rcases h with h | h
        · have hu : update_action_request_status st.req Status.executed (some actor)
              = ({st.req with status := Status.executed, executed_by := some actor},
                 none) := by
            unfold update_action_request_status
            rw [h]
          rw [hu]
          simp
        · rw [update_status_of_executed st.req Status.executed (some actor) h]
          simp [h]

/-- Witness for C2: approving (even with decision `approved`) on a
rejected request leaves it rejected. -/
theorem rejected_is_terminal_sink_witness :
    (DroneOpsService.approve_action
      ⟨⟨"wifi_deauth_test", Status.rejected, [⟨"alice", "rejected", none⟩], none⟩,
       [⟨"requested", "op1"⟩]⟩ "bob" "approved" none).1.req.status
      = Status.rejected :=
  rejected_is_terminal_sink.1 _ "bob" "approved" none rfl

/-- C5: approve_action is idempotent per approver — a second approval by
an approver already recorded (case-insensitively) appends no approval,
writes no audit entry, changes no status, and returns the current
request — and consequently both `approve_action` and `execute_action`
preserve the at-most-one-approval-per-approver invariant. -/
theorem approve_action_idempotent_per_approver :
    (∀ (st : ReqState) (p d : String) (n : Option String),
        (st.req.approvals.any (fun a => pyLower a.approved_by == pyLower p))
          = true →
        DroneOpsService.approve_action st p d n = (st, st.req)) ∧
    (∀ (st : ReqState) (p d : String) (n : Option String),
        AtMostOnePerApprover st.req.approvals →
        AtMostOnePerApprover
          ((DroneOpsService.approve_action st p d n).1.req.approvals)) ∧
    (∀ (st : ReqState) (armed : Bool) (actor : String),
        AtMostOnePerApprover st.req.approvals →
        AtMostOnePerApprover
          ((DroneOpsService.execute_action st armed actor).1.req.approvals)) := by
  refine ⟨?_, ?_, ?_⟩
  · intro st p d n h
    unfold DroneOpsService.approve_action
    rw [if_pos h]
  · intro st p d n h
    unfold DroneOpsService.approve_action
    split
    · exact h
    · rename_i hg
      simp only
      have happ : ∀ a ∈ st.req.approvals, pyLower a.approved_by ≠ pyLower p := by
        intro a ha
        have hfalse : st.req.approvals.any
            (fun a => pyLower a.approved_by == pyLower p) = false := by
          simpa using hg
        have := List.any_eq_false.mp hfalse a ha
        simpa using this
      have hnew : AtMostOnePerApprover
          (st.req.approvals ++ [⟨p, d, n⟩]) := by
        unfold AtMostOnePerApprover at h ⊢
        refine List.pairwise_append.mpr ⟨h, List.pairwise_singleton _ _, ?_⟩
        intro a ha b hb
        simp only [List.mem_singleton] at hb
        subst hb
        exact happ a ha
      split
      · rw [update_status_approvals]
        exact hnew
      · split
        · rw [update_status_approvals]
          exact hnew
        · exact hnew
  · intro st armed actor h
    unfold DroneOpsService.execute_action
    split
    · exact h
    · simp only
      split
      · exact h
      · rcases hu : update_action_request_status st.req Status.executed (some actor)
          with ⟨r, o⟩
        have hra : r.approvals = st.req.approvals := by
          have hap := update_status_approvals st.req Status.executed (some actor)
          rw [hu] at hap
          exact hap
        cases o with
        | none => simpa [AtMostOnePerApprover, hra] using h
        | some e => exact h

/-- Witness for C5: a second approval by "ALICE" when "Alice" already
decided is a complete no-op returning the current request. -/
theorem approve_action_idempotent_per_approver_witness :
    DroneOpsService.approve_action
      ⟨⟨"wifi_deauth_test", Status.pending, [⟨"Alice", "approved", none⟩], none⟩,
       [⟨"requested", "op1"⟩]⟩ "ALICE" "approved" none
      = (⟨⟨"wifi_deauth_test", Status.pending, [⟨"Alice", "approved", none⟩], none⟩,
          [⟨"requested", "op1"⟩]⟩,
         ⟨"wifi_deauth_test", Status.pending, [⟨"Alice", "approved", none⟩], none⟩) :=
  approve_action_idempotent_per_approver.1 _ "ALICE" "approved" none (by decide)

/-- Python's cap-then-round `min(1.0, round(c, 3))` agrees with the
spec's round-of-cap on every reachable confidence sum (sixteen cases,
all exact multiples of 0.05 and at most 1). -/
theorem conf_round_cap_comm (b1 b2 b3 b4 : Bool) :
    min 1 (round3 ((if b1 then (35 : ℚ)/100 else 0) + (if b2 then 35/100 else 0)
      + (if b3 then 15/100 else 0) + (if b4 then 15/100 else 0)))
    = round3 (min 1 ((if b1 then (35 : ℚ)/100 else 0) + (if b2 then 35/100 else 0)
      + (if b3 then 15/100 else 0) + (if b4 then 15/100 else 0))) := by
  cases b1 <;> cases b2 <;> cases b3 <;> cases b4 <;>
    norm_num [round3, round_eq, min_def]

/-- C7: the decoder's confidence is the presence-bonus sum (+0.35 uas
id, +0.35 lat and lon, +0.15 altitude, +0.15 operator id) capped at 1.0
and rounded to 3 decimals (in either order — they agree on every
reachable sum), where presence is visible in the returned record; and
`detected` holds iff a uas id is present or lat and lon are present with
confidence ≥ 0.35. -/
theorem decode_confidence_and_detected (data : List (String × PyVal))
    (fmt : String) :
    ((decode_remote_id_payload data fmt).confidence
      = min 1 (round3
        ((if (decode_remote_id_payload data fmt).uas_id.isSome
            then (35 : ℚ)/100 else 0)
         + (if (decode_remote_id_payload data fmt).lat.isSome
              && (decode_remote_id_payload data fmt).lon.isSome
            then 35/100 else 0)
         + (if (decode_remote_id_payload data fmt).altitude_m.isSome
            then 15/100 else 0)
         + (if (decode_remote_id_payload data fmt).operator_id.isSome
            then 15/100 else 0)))) ∧
    ((decode_remote_id_payload data fmt).confidence
      = round3 (min 1
        ((if (decode_remote_id_payload data fmt).uas_id.isSome
            then (35 : ℚ)/100 else 0)
         + (if (decode_remote_id_payload data fmt).lat.isSome
              && (decode_remote_id_payload data fmt).lon.isSome
            then 35/100 else 0)
         + (if (decode_remote_id_payload data fmt).altitude_m.isSome
            then 15/100 else 0)
         + (if (decode_remote_id_payload data fmt).operator_id.isSome
            then 15/100 else 0)))) ∧
    ((decode_remote_id_payload data fmt).detected = true ↔
      ((decode_remote_id_payload data fmt).uas_id.isSome = true ∨
       ((decode_remote_id_payload data fmt).lat.isSome = true ∧
        (decode_remote_id_payload data fmt).lon.isSome = true ∧
        (35 : ℚ)/100 ≤ (decode_remote_id_payload data fmt).confidence))) := by
  have e1 : (decode_remote_id_payload data fmt).uas_id.isSome
      = pyTruthy (pick data DRONE_ID_KEYS ["remote_id", "message", "uas"]) := by
    by_cases h : pyTruthy (pick data DRONE_ID_KEYS ["remote_id", "message", "uas"]) <;>
      simp [decode_remote_id_payload, h]
  have e4 : (decode_remote_id_payload data fmt).operator_id.isSome
      = pyTruthy (pick data OPERATOR_ID_KEYS ["remote_id", "message", "operator"]) := by
    by_cases h : pyTruthy
        (pick data OPERATOR_ID_KEYS ["remote_id", "message", "operator"]) <;>
      simp [decode_remote_id_payload, h]
  have elat : (decode_remote_id_payload data fmt).lat
      = coerceFloat (pick data LAT_KEYS ["remote_id", "message", "position"]) := rfl
  have elon : (decode_remote_id_payload data fmt).lon
      = coerceFloat (pick data LON_KEYS ["remote_id", "message", "position"]) := rfl
  have ealt : (decode_remote_id_payload data fmt).altitude_m
      = coerceFloat (pick data ALT_KEYS ["remote_id", "message", "position"]) := rfl
  have ec : (decode_remote_id_payload data fmt).confidence
      = min 1 (round3
        ((if pyTruthy (pick data DRONE_ID_KEYS ["remote_id", "message", "uas"])
            then (35 : ℚ)/100 else 0)
         + (if (coerceFloat
                (pick data LAT_KEYS ["remote_id", "message", "position"])).isSome
              && (coerceFloat
                (pick data LON_KEYS ["remote_id", "message", "position"])).isSome
            then 35/100 else 0)
         + (if (coerceFloat
                (pick data ALT_KEYS ["remote_id", "message", "position"])).isSome
            then 15/100 else 0)
         + (if pyTruthy
              (pick data OPERATOR_ID_KEYS ["remote_id", "message", "operator"])
            then 15/100 else 0))) := rfl
  have ed : (decode_remote_id_payload data fmt).detected
      = (pyTruthy (pick data DRONE_ID_KEYS ["remote_id", "message", "uas"])
         || ((coerceFloat
                (pick data LAT_KEYS ["remote_id", "message", "position"])).isSome
             && (coerceFloat
                (pick data LON_KEYS ["remote_id", "message", "position"])).isSome
             && decide ((35 : ℚ)/100
                  ≤ (decode_remote_id_payload data fmt).confidence))) := rfl
  refine ⟨?_, ?_, ?_⟩
  · rw [ec, e1, e4, elat, elon, ealt]
  · rw [ec, e1, e4, elat, elon, ealt]
    exact conf_round_cap_comm _ _ _ _
  · rw [ed, e1, elat, elon]
    simp [Bool.or_eq_true, Bool.and_eq_true, decide_eq_true_eq, and_assoc]

/-- Monotonicity of the 3-decimal rounding. -/
theorem round3_mono {x y : ℚ} (h : x ≤ y) : round3 x ≤ round3 y := by
  unfold round3
  have hr : round (x * 1000) ≤ round (y * 1000) := by
    rw [round_eq, round_eq]
    exact Int.floor_le_floor (by linarith)
  have h2 : ((round (x * 1000) : ℤ) : ℚ) ≤ ((round (y * 1000) : ℤ) : ℚ) := by
    exact_mod_cast hr
  linarith

/-- On scores in [0.5, 0.85] — every RF score — Python's
`min(1.0, round(s, 3))` equals the spec's round-of-cap. -/
theorem rf_round_cap_comm (x : ℚ) (hu : x ≤ 85/100) :
    min 1 (round3 x) = round3 (min 1 x) := by
  rw [min_eq_right (le_trans hu (by norm_num))]
  refine min_eq_right ?_
  calc round3 x ≤ round3 (85/100) := round3_mono hu
    _ ≤ 1 := by norm_num [round3, round_eq]

/-- A fold of `min` over nonnegative values stays nonnegative. -/
theorem foldl_min_nonneg (l : List ℚ) (a : ℚ) (ha : 0 ≤ a)
    (hl : ∀ x ∈ l, 0 ≤ x) : 0 ≤ l.foldl min a := by
  induction l generalizing a with
  | nil => exact ha
  | cons x xs ih =>
    exact ih _ (le_min ha (hl x (by simp))) (fun y hy => hl y (by simp [hy]))

/-- The minimum distance to a known band is nonnegative. -/
theorem closest_freq_delta_nonneg (f : ℚ) : 0 ≤ closest_freq_delta f := by
  unfold closest_freq_delta
  refine foldl_min_nonneg _ _ (abs_nonneg _) ?_
  intro x hx
  simp only [List.mem_map] at hx
  obtain ⟨h, _, rfl⟩ := hx
  exact abs_nonneg _

/-- C8: for an RF event whose extracted frequency is f (1..7000 MHz),
with δ the minimum distance to the known-band hints, the detector emits
nothing when δ > 35 MHz, and otherwise exactly one detection classified
`rf_drone_link_activity` with confidence
`min(1.0, max(0.5, 0.85 − δ/100))` rounded to 3 decimals. -/
theorem rf_band_gate_and_confidence (kvs : List (String × PyVal)) (f : ℚ)
    (hf : extract_frequency_mhz (PyVal.dict kvs) = some f)
    (hlo : 1 ≤ f) (hhi : f ≤ 7000) :
    (35 < closest_freq_delta f → detect_rf (PyVal.dict kvs) = []) ∧
    (closest_freq_delta f ≤ 35 →
      detect_rf (PyVal.dict kvs) =
        [{ source := "rf"
           identifier := "rf:" ++ rfEventId kvs f
           classification := "rf_drone_link_activity"
           confidence := round3 (min 1 (max (1/2)
             ((85 : ℚ)/100 - closest_freq_delta f / 100)))
           remote_id := Option.none
           track := Option.none }]) := by
  constructor
  · intro h
    simp only [detect_rf, hf]
    rw [if_pos h]
  · intro h
    simp only [detect_rf, hf]
    rw [if_neg (not_lt.mpr h)]
    have hδ0 : (0 : ℚ) ≤ closest_freq_delta f := closest_freq_delta_nonneg f
    rw [rf_round_cap_comm _ (max_le (by norm_num) (by linarith))]

/-- Witness for C8: frequency 868.5 MHz (δ = 0.5 to the 868 band) gives
exactly one RF detection with confidence 0.845. -/
theorem rf_band_gate_and_confidence_witness :
    detect_rf (PyVal.dict [("frequency_mhz", PyVal.num (1737/2))]) =
      [{ source := "rf"
         identifier := "rf:868.500MHz"
         classification := "rf_drone_link_activity"
         confidence := 169/200
         remote_id := Option.none
         track := Option.none }] := by
  have hf : extract_frequency_mhz
      (PyVal.dict [("frequency_mhz", PyVal.num (1737/2))]) = some (1737/2) := by
    have h6 : round6 (1737/2) = 1737/2 := by
      norm_num [round6, round_eq]
    simp [extract_frequency_mhz, freqFromCandidates, dictGet, dictHasKey,
      coerceFloat, h6]
    norm_num
    exact h6
  have hδ : closest_freq_delta (1737/2) = 1/2 := by
    norm_num [closest_freq_delta, RF_FREQ_HINTS_MHZ, abs_of_nonneg,
      abs_of_nonpos, min_def]
  have happ := (rf_band_gate_and_confidence _ _ hf (by norm_num)
    (by norm_num)).2 (by rw [hδ]; norm_num)
  rw [happ, hδ]
  have hid : rfEventId [("frequency_mhz", PyVal.num (1737/2))] (1737/2)
      = "868.500MHz" := by
    have hn : round ((1737 : ℚ)/2 * 1000) = 868500 := by
      norm_num [round_eq]
    simp [rfEventId, dictGet, pyOr, pyTruthy, pyStr, format3, hn]
    rfl
  rw [hid]
  have hc : round3 (min 1 (max (1/2) ((85 : ℚ)/100 - (1/2) / 100))) = 169/200 := by
    norm_num [round3, round_eq, min_def, max_def]
  rw [hc]
  rfl

/-- C9: the WiFi detector emits a detection only when its score reaches
0.5, identified by the BSSID when present else the SSID; and the
concrete event {bssid: 60:60:1F:AA:BB:CC, ssid: DJI-OPS-TEST} under
mode "wifi" yields exactly one detection with source "wifi",
classification `wifi_drone_signature` and confidence 0.9. -/
theorem wifi_threshold_identifier_and_scenario :
    (∀ (event : PyVal) (net : List (String × PyVal)),
        extractWifiEvent event = some net →
        ∀ d ∈ detect_wifi event,
          1/2 ≤ wifiScore net ∧
          d.identifier = (if wifiBssid net ≠ "" then wifiBssid net
            else wifiSsid net)) ∧
    detect_from_event (some "wifi")
        (PyVal.dict [("bssid", PyVal.str "60:60:1F:AA:BB:CC"),
                     ("ssid", PyVal.str "DJI-OPS-TEST")]) =
      [{ source := "wifi"
         identifier := "60:60:1F:AA:BB:CC"
         classification := "wifi_drone_signature"
         confidence := 9/10
         remote_id := Option.none
         track := Option.none }] := by
  constructor
  · intro event net hex d hd
    simp only [detect_wifi, hex] at hd
    by_cases hid : (if wifiBssid net ≠ "" then wifiBssid net else wifiSsid net) = ""
    · rw [if_pos hid] at hd
      simp at hd
    · rw [if_neg hid] at hd
      by_cases hsc : wifiScore net < 1/2
      · rw [if_pos hsc] at hd
        simp at hd
      · rw [if_neg hsc] at hd
        simp only [List.mem_singleton] at hd
        subst hd
        exact ⟨not_lt.mp hsc, rfl⟩
  · have hdisp : detect_from_event (some "wifi")
        (PyVal.dict [("bssid", PyVal.str "60:60:1F:AA:BB:CC"),
                     ("ssid", PyVal.str "DJI-OPS-TEST")])
        = detect_wifi
        (PyVal.dict [("bssid", PyVal.str "60:60:1F:AA:BB:CC"),
                     ("ssid", PyVal.str "DJI-OPS-TEST")]) := rfl
    have hext : extractWifiEvent
        (PyVal.dict [("bssid", PyVal.str "60:60:1F:AA:BB:CC"),
                     ("ssid", PyVal.str "DJI-OPS-TEST")])
        = some [("bssid", PyVal.str "60:60:1F:AA:BB:CC"),
                ("ssid", PyVal.str "DJI-OPS-TEST")] := rfl
    have hdet0 : (decode_remote_id_payload
        [("bssid", PyVal.str "60:60:1F:AA:BB:CC"),
         ("ssid", PyVal.str "DJI-OPS-TEST")] "dict").detected = false := by decide
    have hbs : wifiBssid [("bssid", PyVal.str "60:60:1F:AA:BB:CC"),
        ("ssid", PyVal.str "DJI-OPS-TEST")] = "60:60:1F:AA:BB:CC" := by decide
    have hss : wifiSsid [("bssid", PyVal.str "60:60:1F:AA:BB:CC"),
        ("ssid", PyVal.str "DJI-OPS-TEST")] = "DJI-OPS-TEST" := by decide
    have hpat : ssidPatternHit "DJI-OPS-TEST" = true := by decide
    have houi : (ouiBrand (String.mk
        (("60:60:1F:AA:BB:CC" : String).data.take 8))).isSome = true := by decide
    have hne1 : ("DJI-OPS-TEST" : String) ≠ "" := by decide
    have hne2 : ("60:60:1F:AA:BB:CC" : String) ≠ "" := by decide
    have hscore : wifiScore [("bssid", PyVal.str "60:60:1F:AA:BB:CC"),
        ("ssid", PyVal.str "DJI-OPS-TEST")] = 9/10 := by
      have houi2 : (ouiBrand
          (String.mk ['6', '0', ':', '6', '0', ':', '1', 'F'])).isSome = true := by
        decide
      norm_num [wifiScore, hdet0, hbs, hss, hpat, houi, houi2, hne1, hne2]
    have hconf : min 1 (round3 ((9 : ℚ)/10)) = 9/10 := by
      norm_num [round3, round_eq, min_def]
    rw [hdisp]
    simp only [detect_wifi, hext, hbs, hss, hscore, hdet0, hconf,
      maybe_track_from_remote_id]
    norm_num [hne2]

/-- Witness for C9: the concrete DJI event's detection is in the WiFi
detector output, its score reaches the 0.5 threshold, and its
identifier is the BSSID. -/
theorem wifi_threshold_identifier_and_scenario_witness :
    1/2 ≤ wifiScore [("bssid", PyVal.str "60:60:1F:AA:BB:CC"),
      ("ssid", PyVal.str "DJI-OPS-TEST")] ∧
    ("60:60:1F:AA:BB:CC" : String) =
      (if wifiBssid [("bssid", PyVal.str "60:60:1F:AA:BB:CC"),
          ("ssid", PyVal.str "DJI-OPS-TEST")] ≠ "" then
        wifiBssid [("bssid", PyVal.str "60:60:1F:AA:BB:CC"),
          ("ssid", PyVal.str "DJI-OPS-TEST")]
      else wifiSsid [("bssid", PyVal.str "60:60:1F:AA:BB:CC"),
          ("ssid", PyVal.str "DJI-OPS-TEST")]) :=
  wifi_threshold_identifier_and_scenario.1
    (PyVal.dict [("bssid", PyVal.str "60:60:1F:AA:BB:CC"),
      ("ssid", PyVal.str "DJI-OPS-TEST")])
    [("bssid", PyVal.str "60:60:1F:AA:BB:CC"),
      ("ssid", PyVal.str "DJI-OPS-TEST")] rfl
    { source := "wifi"
      identifier := "60:60:1F:AA:BB:CC"
      classification := "wifi_drone_signature"
      confidence := 9/10
      remote_id := Option.none
      track := Option.none }
    (by
      have h2 := wifi_threshold_identifier_and_scenario.2
      have hw : detect_wifi (PyVal.dict [("bssid", PyVal.str "60:60:1F:AA:BB:CC"),
          ("ssid", PyVal.str "DJI-OPS-TEST")]) =
          [{ source := "wifi"
             identifier := "60:60:1F:AA:BB:CC"
             classification := "wifi_drone_signature"
             confidence := 9/10
             remote_id := Option.none
             track := Option.none }] := h2
      rw [hw]
      exact List.mem_singleton.mpr rfl)

set_option maxRecDepth 10000 in
/-- Sanity anchor for the SHA-256 transcription: the FIPS 180-4 test
vector, `sha256("abc")`. -/
theorem sha256_known_vector : sha256Hex (utf8Bytes "abc")
    = "ba7816bf8f01cfea414140de5dae2223b00361a396177a9cb410ff61f20015ad" := by
  decide

/-- Hex rendering doubles the byte count. -/
theorem bytesToHexChars_length (bs : List Nat) :
    (bytesToHexChars bs).length = 2 * bs.length := by
  induction bs with
  | nil => rfl
  | cons b rest ih =>
    simp only [bytesToHexChars, List.length_cons, ih]
    ring

/-- A SHA-256 digest is 32 bytes. -/
theorem sha256Bytes_length (msg : List Nat) : (sha256Bytes msg).length = 32 := by
  simp [sha256Bytes, bigEndian4]

/-- A SHA-256 hex digest is 64 characters. -/
theorem sha256Hex_length (msg : List Nat) : (sha256Hex msg).length = 64 := by
  have h := bytesToHexChars_length (sha256Bytes msg)
  rw [sha256Bytes_length] at h
  simp [sha256Hex, String.length, h]

/-- Every output of `hexDigit` is a lower-case hex character. -/
theorem hexDigit_mem (n : Nat) :
    hexDigit n ∈ ("0123456789abcdef" : String).data := by
  have hlist : hexChars = ("0123456789abcdef" : String).data := by decide
  rw [← hlist]
  unfold hexDigit
  rcases h : hexChars[n]? with _ | c
  · simp [List.getD, h]
    decide
  · have hm : c ∈ hexChars := by
      have hsome := List.getElem?_eq_some_iff.mp h
      rcases hsome with ⟨hlt, rfl⟩
      exact List.getElem_mem hlt
    simpa [List.getD, h] using hm

/-- Every character of a hex rendering is a hex character. -/
theorem mem_hex_of_mem_bytesToHexChars (c : Char) (bs : List Nat)
    (h : c ∈ bytesToHexChars bs) : c ∈ ("0123456789abcdef" : String).data := by
  induction bs with
  | nil => simp [bytesToHexChars] at h
  | cons b rest ih =>
    simp only [bytesToHexChars, List.mem_cons] at h
    rcases h with h | h | h
    · rw [h]; exact hexDigit_mem _
    · rw [h]; exact hexDigit_mem _
    · exact ih h

/-- C6: the stored digest of a generated evidence manifest is the
SHA-256 hex digest of the UTF-8 bytes of the canonical JSON
serialization (keys sorted at every level, separators `,` and `:`) of
the manifest body with its `integrity` field removed — that body being
exactly `manifest_core` — and the digest is 64 lower-case hex
characters. -/
theorem manifest_digest_is_sha256_of_canonical_body (generated_at : String)
    (incident : IncidentRow) (action_requests action_audit : List Json) :
    jsonGet (jsonGet (generate_evidence_manifest generated_at incident
        action_requests action_audit) "integrity") "digest"
      = Json.str (sha256Hex (utf8Bytes (jsonSerialize (stripKey
          (generate_evidence_manifest generated_at incident action_requests
            action_audit) "integrity")))) ∧
    stripKey (generate_evidence_manifest generated_at incident action_requests
        action_audit) "integrity"
      = Json.obj (manifestCoreKVs generated_at incident action_requests
          action_audit) ∧
    (sha256Hex (utf8Bytes (jsonSerialize (stripKey
        (generate_evidence_manifest generated_at incident action_requests
          action_audit) "integrity")))).length = 64 ∧
    ∀ c ∈ (sha256Hex (utf8Bytes (jsonSerialize (stripKey
        (generate_evidence_manifest generated_at incident action_requests
          action_audit) "integrity")))).data,
      c ∈ ("0123456789abcdef" : String).data :=
  ⟨rfl, rfl, sha256Hex_length _,
   fun c hc => mem_hex_of_mem_bytesToHexChars c _ hc⟩
